import Mathlib

/-!
Verification development for the dify-whatsapp-bot repository.

Embeds the two Python source modules that carry the behaviour under
scrutiny:

* `src/endpoints/whatsapp-bot.py` — the webhook pipeline
  (`_handle_webhook`, `_invoke_app_reply`, `_extract_text`,
  `_get_app_id`, `_send_whatsapp_text`), with the Conversation Store,
  App invocation, and outbound send modelled as explicit state and an
  effect log.
* `src/tools/send_message.py` — the direct-send tool
  (`SendMessageTool._invoke`, `safe_json`, `extract_api_error`,
  `suggest_fix`), with the HTTP response supplied as a parameter.

Python values (JSON payloads, `dict.get` results, and so on) are
modelled by the inductive `PyVal`; Python truthiness, the `or`
operator, `in` membership, iteration, and attribute errors are
modelled explicitly so that the exception-swallowing structure of the
source is preserved.
-/

namespace WABot

/-- A Python value as it can appear in a parsed JSON payload or as a
`dict.get` result.  `none` stands for Python `None` (also the result
of parsing JSON `null`). -/
inductive PyVal where
  | none : PyVal
  | bool : Bool → PyVal
  | int : Int → PyVal
  | str : String → PyVal
  | list : List PyVal → PyVal
  | dict : List (String × PyVal) → PyVal

/-- Python truthiness (`bool(v)`): `None`, `False`, `0`, `""`, `[]`
and `{}` are falsy, everything else truthy. -/
def pyTruthy : PyVal → Bool
  | .none => false
  | .bool b => b
  | .int n => n != 0
  | .str s => s != ""
  | .list xs => !xs.isEmpty
  | .dict kvs => !kvs.isEmpty

/-- Python `a or b`: `a` when `a` is truthy, else `b`. -/
def pyOr (a b : PyVal) : PyVal :=
  if pyTruthy a then a else b

/-- Python `==` restricted to the scalar comparisons the sources
perform (`code == 190`, `message_type == 'text'`, membership of a
subcode in an int set).  Booleans compare equal to the corresponding
ints as in Python.  Container comparisons are never performed by the
embedded code and are modelled as `false`. -/
def pyEq : PyVal → PyVal → Bool
  | .none, .none => true
  | .bool a, .bool b => a == b
  | .int a, .int b => a == b
  | .bool a, .int b => (if a then (1 : Int) else 0) == b
  | .int a, .bool b => a == (if b then (1 : Int) else 0)
  | .str a, .str b => a == b
  | _, _ => false

/-- First binding of key `k` in a Python dict, or Python `None` when
the key is absent (the semantics of `dict.get(k)`). -/
def dictGet (kvs : List (String × PyVal)) (k : String) : PyVal :=
  match kvs.find? (fun p => p.fst == k) with
  | some p => p.snd
  | Option.none => .none

/-- `v.get(k)`: succeeds only on dicts, every other receiver raises
`AttributeError` (modelled as `Except.error`). -/
def pyGetE (v : PyVal) (k : String) : Except Unit PyVal :=
  match v with
  | .dict kvs => .ok (dictGet kvs k)
  | _ => .error ()

/-- `v.get(k, d)`: like `pyGetE` but with an explicit default for an
absent key. -/
def pyGetDefaultE (v : PyVal) (k : String) (d : PyVal) : Except Unit PyVal :=
  match v with
  | .dict kvs =>
      .ok (match kvs.find? (fun p => p.fst == k) with
           | some p => p.snd
           | Option.none => d)
  | _ => .error ()

/-- `pat` occurs as a leading block of `l` (character-wise). -/
def charsLeads : List Char → List Char → Bool
  | [], _ => true
  | _ :: _, [] => false
  | c :: cs, d :: ds => c == d && charsLeads cs ds

/-- `pat` occurs as a contiguous block somewhere in `l`. -/
def charsHasSub (pat : List Char) : List Char → Bool
  | [] => charsLeads pat []
  | d :: ds => charsLeads pat (d :: ds) || charsHasSub pat ds

/-- Python `pat in s` on strings: substring containment. -/
def strContains (s pat : String) : Bool :=
  charsHasSub pat.data s.data

/-- Python `k in v` for a string key: key lookup on dicts, substring
test on strings, element equality on lists; any other receiver raises
`TypeError` (modelled as `Except.error`). -/
def pyInE (k : String) (v : PyVal) : Except Unit Bool :=
  match v with
  | .dict kvs => .ok (kvs.any (fun p => p.fst == k))
  | .str s => .ok (strContains s k)
  | .list xs => .ok (xs.any (fun x => pyEq x (.str k)))
  | _ => .error ()

/-- Python iteration `for x in v`: lists yield their elements, strings
their characters, dicts their keys; any other receiver raises
`TypeError`. -/
def pyIterE (v : PyVal) : Except Unit (List PyVal) :=
  match v with
  | .list xs => .ok xs
  | .str s => .ok (s.data.map (fun c => .str (String.mk [c])))
  | .dict kvs => .ok (kvs.map (fun p => .str p.fst))
  | _ => .error ()

/-- The whitespace characters removed by Python `str.strip()`. -/
def isPySpace (c : Char) : Bool :=
  c == ' ' || c == '\t' || c == '\n' || c == '\r' || c == '\x0b' || c == '\x0c'

/-- Python `s.strip()`: drop leading and trailing whitespace. -/
def pyStrip (s : String) : String :=
  String.mk (((s.data.dropWhile isPySpace).reverse.dropWhile isPySpace).reverse)

/-- ASCII decimal digit, the exact character class `[0-9]`. -/
def isAsciiDigit (c : Char) : Bool :=
  '0' ≤ c && c ≤ '9'

/-- `re.sub(r"[^0-9]", "", x)` from `SendMessageTool._invoke`: keep
exactly the decimal digits of `x`. -/
def normalize (s : String) : String :=
  String.mk (s.data.filter isAsciiDigit)

mutual

/-- Python `repr` for the embedded value type (containers as printed
by `str()`/`repr()`; string escaping is not needed by any embedded
code path). -/
def pyRepr : PyVal → String
  | .none => "None"
  | .bool true => "True"
  | .bool false => "False"
  | .int n => toString n
  | .str s => "\x27" ++ s ++ "\x27"
  | .list xs => "[" ++ pyReprList xs ++ "]"
  | .dict kvs => "\x7b" ++ pyReprDict kvs ++ "\x7d"

/-- Comma-separated `repr`s of list elements. -/
def pyReprList : List PyVal → String
  | [] => ""
  | [x] => pyRepr x
  | x :: xs => pyRepr x ++ ", " ++ pyReprList xs

/-- Comma-separated `repr`s of dict entries. -/
def pyReprDict : List (String × PyVal) → String
  | [] => ""
  | [(k, v)] => "\x27" ++ k ++ "\x27: " ++ pyRepr v
  | (k, v) :: kvs => "\x27" ++ k ++ "\x27: " ++ pyRepr v ++ ", " ++ pyReprDict kvs

end

/-- Python `str(v)`: identity on strings, `repr`-like on the rest. -/
def pyStr (v : PyVal) : String :=
  match v with
  | .str s => s
  | _ => pyRepr v

/-- `v is None` (identity test against Python `None`). -/
def PyVal.isNone : PyVal → Bool
  | .none => true
  | _ => false

/-! ## Webhook pipeline (`src/endpoints/whatsapp-bot.py`) -/

/-- The Conversation Store: an association of conversation keys to the
stored continuity-token bytes (decoded as strings; the source encodes
and decodes UTF-8, which is the identity at this level). -/
abbrev Store := List (String × String)

/-- `session.storage.get(key)`: the stored value, or absent (in the
source an absent key raises and the surrounding `except` turns it into
`None`; both outcomes are `Option.none` here). -/
def storeLookup (st : Store) (k : String) : Option String :=
  match st.find? (fun p => p.fst == k) with
  | some p => some p.snd
  | Option.none => Option.none

/-- `session.storage.set(key, value)`: overwrite-on-write. -/
def storeSet (st : Store) (k v : String) : Store :=
  (k, v) :: st.filter (fun p => p.fst != k)

/-- An HTTP response as produced by the endpoint (status code and
plain-text body). -/
structure Resp where
  status : Nat
  body : String
deriving DecidableEq

/-- `Response("ok", status=200)`, the pipeline's acknowledgment. -/
def okResp : Resp := { status := 200, body := "ok" }

/-- The keyword arguments passed to `session.app.chat.invoke` in
`_invoke_app_reply`: `conversation_id` is included only when a truthy
token was read back from the store. -/
structure InvokeParams where
  app_id : String
  query : PyVal
  inputs : List (String × PyVal)
  response_mode : String
  conversation_id : Option String

/-- One outbound send as issued by `_send_whatsapp_text`: the
recipient (`to`) and message body of the JSON payload.  The other
payload fields (`messaging_product: "whatsapp"`, `type: "text"`) and
the URL/credentials are the same constants for every send of a request
and are not recorded. -/
structure SendReq where
  to_wa_id : PyVal
  body : PyVal

/-- The mutable state threaded through one webhook request: the
Conversation Store plus an effect log of store reads, store writes,
App invocations, and outbound sends. -/
structure WalkSt where
  store : Store
  reads : List String
  writes : List (String × String)
  invokes : List InvokeParams
  sends : List SendReq

/-- Fresh state at the start of a request: store as given, no effects
performed yet. -/
def initSt (store : Store) : WalkSt :=
  { store := store, reads := [], writes := [], invokes := [], sends := [] }

/-- Endpoint settings.  `access_token`, `phone_number_id` and
`verify_token` are configured strings (absent modelled as
`Option.none`); the `app` selector may be any shape, as in the
source. -/
structure Settings where
  access_token : Option String
  phone_number_id : Option String
  app : PyVal

/-- `_get_app_id`: extract the app id from an app selector that may be
a string or a mapping.  A falsy selector and a blank id resolve to no
app.  (A mapping whose `app_id`/`id` value is a truthy non-string
would raise on `.strip()` in the source; that shape is modelled as no
app and is not exercised by any claim.) -/
def get_app_id (app_setting : PyVal) : Option String :=
  if !pyTruthy app_setting then Option.none
  else
    match app_setting with
    | .str s =>
        let app_id := pyStrip s
        if app_id != "" then some app_id else Option.none
    | .dict kvs =>
        match pyOr (dictGet kvs ("app_id")) (pyOr (dictGet kvs ("id")) (.str (""))) with
        | .str s =>
            let app_id := pyStrip s
            if app_id != "" then some app_id else Option.none
        | _ => Option.none
    | _ => Option.none

/-- `_extract_text`: for a `type == "text"` message return
`message.get('text').get('body')` (with `or {}` defaulting), `None`
for every other type.  Raises (`Except.error`) when a `.get` receiver
is not a dict. -/
def extract_text (message : PyVal) : Except Unit PyVal :=
  match pyGetE message ("type") with
  | .error _ => .error ()
  | .ok message_type =>
    if pyEq message_type (.str ("text")) then
      match pyGetE message ("text") with
      | .error _ => .error ()
      | .ok t0 => pyGetE (pyOr t0 (.dict [])) ("body")
    else
      .ok .none

/-- The continuity token read back at the top of `_invoke_app_reply`
(lines 73-79): the stored bytes when present and truthy, else `None`
(an absent key raises inside the `try` and is likewise `None`). -/
def stored_conversation_id (store : Store) (conversation_key : String) :
    Option String :=
  match storeLookup store conversation_key with
  | some s => if s != "" then some s else Option.none
  | Option.none => Option.none

/-- The `or`-chain of line 93-97:
`result.get('answer') or result.get('output_text') or result.get('message')`. -/
def extract_answer_chain (kvs : List (String × PyVal)) : PyVal :=
  pyOr (dictGet kvs ("answer"))
    (pyOr (dictGet kvs ("output_text")) (dictGet kvs ("message")))

/-- The `invoke_params` dict built in `_invoke_app_reply`:
`conversation_id` is added only when the token is truthy
(`if conversation_id:`). -/
def build_invoke_params (app_id : String) (query : PyVal)
    (inputs : List (String × PyVal)) (conversation_id : Option String) :
    InvokeParams :=
  { app_id := app_id
    query := query
    inputs := inputs
    response_mode := "blocking"
    conversation_id :=
      match conversation_id with
      | some s => if s != "" then some s else Option.none
      | Option.none => Option.none }

/-- `_invoke_app_reply`: read the continuity token (best effort),
invoke the App (`appFn`; `Option.none` models a raised exception),
extract the answer by the `or`-chain over `answer`, `output_text`,
`message`, persist a truthy new `conversation_id`, and return
`str(answer)` unless the answer is `None`.  Every failure path
returns `Option.none` as in the source's blanket `except`. -/
def invoke_app_reply (appFn : InvokeParams → Option PyVal) (app_id : String)
    (query : PyVal) (inputs : List (String × PyVal)) (conversation_key : String)
    (st0 : WalkSt) : Option String × WalkSt :=
  let conversation_id : Option String :=
    stored_conversation_id st0.store conversation_key
  let st1 : WalkSt := { st0 with reads := st0.reads ++ [conversation_key] }
  let params : InvokeParams := build_invoke_params app_id query inputs conversation_id
  let st2 : WalkSt := { st1 with invokes := st1.invokes ++ [params] }
  match appFn params with
  | Option.none => (Option.none, st2)
  | some result =>
    match result with
    | .dict kvs =>
        let answer : PyVal := extract_answer_chain kvs
        let new_conversation_id : PyVal := dictGet kvs ("conversation_id")
        let st3 : WalkSt :=
          if pyTruthy new_conversation_id then
            { st2 with
                store := storeSet st2.store conversation_key (pyStr new_conversation_id)
                writes := st2.writes ++ [(conversation_key, pyStr new_conversation_id)] }
          else st2
        (match answer with
         | .none => Option.none
         | a => some (pyStr a), st3)
    | _ => (Option.none, st2)

/-- Per-request context for the message walk: the App backend, the
resolved app id, and the credential-derived fields computed before the
loop in `_handle_webhook`. -/
structure Ctx where
  appFn : InvokeParams → Option PyVal
  app_id : Option String
  can_reply : Bool
  access_token : String
  phone_number_id : String

/-- `_send_whatsapp_text`: fire one outbound POST; transport failures
are swallowed, so the only observable effect is the recorded send. -/
def send_whatsapp_text (ctx : Ctx) (to_wa_id body_text : PyVal) (st : WalkSt) :
    WalkSt :=
  { st with sends := st.sends ++ [{ to_wa_id := to_wa_id, body := body_text }] }

/-- The body of the innermost `for message in messages` loop of
`_handle_webhook` (lines 158-191): extract sender and text, skip
incomplete messages, invoke the App when configured, fall back to echo
on a falsy reply, and send when allowed.  `Except.error` models an
exception escaping to the walk's `try`. -/
def process_message (ctx : Ctx) (message : PyVal) (st : WalkSt) :
    Except Unit WalkSt :=
  match pyGetE message ("from") with
  | .error _ => .error ()
  | .ok sender_wa_id =>
    match extract_text message with
    | .error _ => .error ()
    | .ok text_body =>
      if !pyTruthy sender_wa_id || text_body.isNone then .ok st
      else
        let identify_inputs : List (String × PyVal) :=
          [("whatsapp_user_id", sender_wa_id),
           ("phone_number_id", .str ctx.phone_number_id)]
        let conversation_key : String :=
          "whatsapp:" ++ ctx.phone_number_id ++ ":" ++ pyStr sender_wa_id
        let step : Option String × WalkSt :=
          match ctx.app_id with
          | some a =>
              invoke_app_reply ctx.appFn a text_body identify_inputs
                conversation_key st
          | Option.none => (Option.none, st)
        let reply1 : PyVal :=
          match step.fst with
          | some s => .str s
          | Option.none => .none
        let reply_text : PyVal := if !pyTruthy reply1 then text_body else reply1
        if ctx.can_reply && pyTruthy reply_text then
          .ok (send_whatsapp_text ctx sender_wa_id reply_text step.snd)
        else
          .ok step.snd

/-- Outcome of a walk over (part of) the payload: normal completion,
or an exception carrying the state at the point it was raised (the
effects already performed persist). -/
inductive WalkRes where
  | ok (st : WalkSt)
  | exn (st : WalkSt)

/-- `for message in messages`: process messages in order; an exception
aborts the remaining ones. -/
def walkMessages (ctx : Ctx) : List PyVal → WalkSt → WalkRes
  | [], st => .ok st
  | m :: ms, st =>
    match process_message ctx m st with
    | .error _ => .exn st
    | .ok st1 => walkMessages ctx ms st1

/-- `for change in changes`: for each change compute
`value = change.get('value') or {}` and
`messages = value.get('messages') or []`, then walk the messages. -/
def walkChanges (ctx : Ctx) : List PyVal → WalkSt → WalkRes
  | [], st => .ok st
  | c :: cs, st =>
    match pyGetE c ("value") with
    | .error _ => .exn st
    | .ok v0 =>
      let value := pyOr v0 (.dict [])
      match pyGetE value ("messages") with
      | .error _ => .exn st
      | .ok ms0 =>
        let messages := pyOr ms0 (.list [])
        match pyIterE messages with
        | .error _ => .exn st
        | .ok msgs =>
          match walkMessages ctx msgs st with
          | .ok st1 => walkChanges ctx cs st1
          | .exn st1 => .exn st1

/-- `for entry in payload.get('entry', [])` body: iterate
`entry.get('changes', [])` and walk the changes. -/
def walkEntries (ctx : Ctx) : List PyVal → WalkSt → WalkRes
  | [], st => .ok st
  | e :: es, st =>
    match pyGetDefaultE e ("changes") (.list []) with
    | .error _ => .exn st
    | .ok cs0 =>
      match pyIterE cs0 with
      | .error _ => .exn st
      | .ok cs =>
        match walkChanges ctx cs st with
        | .ok st1 => walkEntries ctx es st1
        | .exn st1 => .exn st1

/-- Line 140, `payload = r.get_json(silent=True) or {}`.  `parsed` is
the outcome of `r.get_json(silent=True)`: `Option.none` models an
unparseable body (werkzeug's documented behaviour with `silent=True`
is to return `None` rather than raise, so the source's `except`/400
branch is unreachable for a parse failure and does not appear in the
model). -/
def webhook_payload (parsed : Option PyVal) : PyVal :=
  match parsed with
  | some v => if pyTruthy v then v else .dict []
  | Option.none => .dict []

/-- `_handle_webhook`.  The result is the HTTP response
(`Option.none` models an exception escaping the handler — reachable
only from the `'entry' not in payload` membership test on a truthy
non-container payload, which sits outside the `try`) together with
the final store and effect log. -/
def handle_webhook (appFn : InvokeParams → Option PyVal) (parsed : Option PyVal)
    (settings : Settings) (store : Store) : Option Resp × WalkSt :=
  let payload : PyVal := webhook_payload parsed
  let access_token := pyStrip (settings.access_token.getD (""))
  let phone_number_id := pyStrip (settings.phone_number_id.getD (""))
  let app_id := get_app_id settings.app
  if !pyTruthy payload then (some okResp, initSt store)
  else
    match pyInE ("entry") payload with
    | .error _ => (Option.none, initSt store)
    | .ok hasEntry =>
      if !hasEntry then (some okResp, initSt store)
      else
        let can_reply : Bool := access_token != "" && phone_number_id != ""
        let ctx : Ctx :=
          { appFn := appFn, app_id := app_id, can_reply := can_reply
            access_token := access_token, phone_number_id := phone_number_id }
        match pyGetDefaultE payload ("entry") (.list []) with
        | .error _ => (some okResp, initSt store)
        | .ok entries0 =>
          match pyIterE entries0 with
          | .error _ => (some okResp, initSt store)
          | .ok entries =>
            match walkEntries ctx entries (initSt store) with
            | .ok st => (some okResp, st)
            | .exn st => (some okResp, st)

/-! ## Direct-send tool (`src/tools/send_message.py`) -/

/-- An HTTP response from `requests.post`: status code, the result of
`resp.json()` (`Option.none` when the body is not valid JSON), and the
raw body text. -/
structure HttpResp where
  status_code : Nat
  jsonBody : Option PyVal
  text : String

/-- `safe_json`: the parsed JSON body, or `{"text": <first 500 chars>}`
when the body does not parse. -/
def safe_json (resp : HttpResp) : PyVal :=
  match resp.jsonBody with
  | some v => v
  | Option.none => .dict [("text", .str (resp.text.take 500))]

/-- The structured API error assembled by `extract_api_error`.  Each
field is the raw `err.get(...)` result (Python `None` when absent). -/
structure ApiError where
  code : PyVal
  type : PyVal
  message : PyVal
  error_subcode : PyVal

/-- `extract_api_error`: when `body` is a dict with an `error` key,
build the structured error from `body.get("error") or {}`; otherwise
`None`.  A truthy non-dict `error` value raises on `err.get`
(`Except.error`). -/
def extract_api_error (body : PyVal) : Except Unit (Option ApiError) :=
  match body with
  | .dict kvs =>
      if kvs.any (fun p => p.fst == "error") then
        match pyOr (dictGet kvs ("error")) (.dict []) with
        | .dict ekvs =>
            .ok (some
              { code := dictGet ekvs ("code")
                type := dictGet ekvs ("type")
                message := dictGet ekvs ("message")
                error_subcode := dictGet ekvs ("error_subcode") })
        | _ => .error ()
      else .ok Option.none
  | _ => .ok Option.none

/-- Hint for `code == 190`. -/
def hint190 : String :=
  "Invalid or expired access token. Recreate a system user token with proper permissions."

/-- Hint for `code == 100`. -/
def hint100 : String :=
  "Invalid parameters. Verify \x27phone_number_id\x27 and that \x27to\x27 is a valid international number."

/-- Hint for `error_subcode in {2018049, 131000, 131031}`. -/
def hintOptIn : String :=
  "Recipient has not messaged your business recently or is not opted-in. " ++
  "Ensure a recent user-initiated session or use an approved template."

/-- Hint when the message contains "Unsupported post request". -/
def hintMismatch : String :=
  "Check that the phone_number_id belongs to your app and Business Account."

/-- The fallback hint. -/
def hintGeneric : String :=
  "Check Business Account setup, permissions (whatsapp_business_messaging), and recipient format (E.164 without \x27+\x27)."

/-- `suggest_fix`: the ordered remediation lookup.  `Option.none`
models the `TypeError` raised by `"Unsupported post request" in
message` when the extracted message is a truthy non-string (that line
is only reached after the code and subcode checks fail). -/
def suggest_fix (api_error : ApiError) : Option String :=
  let code := api_error.code
  let subcode := api_error.error_subcode
  let message := pyOr api_error.message (.str (""))
  if pyEq code (.int 190) then some hint190
  else if pyEq code (.int 100) then some hint100
  else if pyEq subcode (.int 2018049) || pyEq subcode (.int 131000) ||
          pyEq subcode (.int 131031) then some hintOptIn
  else
    match message with
    | .str s =>
        if strContains s ("Unsupported post request") then some hintMismatch
        else some hintGeneric
    | _ => Option.none

/-- Status attached to a log message. -/
inductive LogStatus where
  | success
  | error
deriving DecidableEq

/-- A message yielded by the tool: a log line (label and status; the
attached data dict is observability only and not modelled), a plain
text message, or a JSON message. -/
inductive ToolMsg where
  | logMsg (label : String) (status : LogStatus)
  | textMsg (s : String)
  | jsonMsg (v : PyVal)

/-- The outbound POST issued by the tool: URL (derived from
`phone_number_id`), normalized recipient, and message body.  The
constant payload fields (`messaging_product: "whatsapp"`,
`type: "text"`) and the bearer header are not recorded. -/
structure SendHttpReq where
  url : String
  bearer : String
  to_wa : String
  body_text : String

/-- Which terminal branch of `SendMessageTool._invoke` produced the
final yield. -/
inductive SendOutcome where
  | configError
  | paramError
  | sentOk
  | apiHintError
  | httpError
  | exnFailure
deriving DecidableEq

/-- Everything observable about one tool invocation: the yielded
messages in order, the POST that was issued (if any), and the terminal
branch taken. -/
structure ToolOut where
  msgs : List ToolMsg
  request : Option SendHttpReq
  outcome : SendOutcome

/-- The success summary (lines 77-85): `"sent to {to}"`, plus
`" (id: {wa_message_id})"` when a truthy id can be extracted from
`body["messages"][0]["id"]`; any exception inside that block falls
back to the bare summary. -/
def sent_summary (toDigits : String) (body : PyVal) : String :=
  let base := "sent to " ++ toDigits
  match body with
  | .dict kvs =>
      match pyOr (dictGet kvs ("messages")) (.list []) with
      | .list (m :: _) =>
          match pyGetE m ("id") with
          | .ok wa_message_id =>
              if pyTruthy wa_message_id then
                base ++ " (id: " ++ pyStr wa_message_id ++ ")"
              else base
          | .error _ => base
      | _ => base
  | _ => base

/-- The dict re-serialized from an `ApiError` for the error JSON
message. -/
def apiErrorVal (e : ApiError) : PyVal :=
  .dict [("code", e.code), ("type", e.type), ("message", e.message),
         ("error_subcode", e.error_subcode)]

/-- Lines 40-103 of `SendMessageTool._invoke`: everything after the
credential and parameter checks have passed — normalize the
recipient, issue the POST, and report the result.  Factored out of
`send_message_invoke` so the post-check behaviour can be reasoned
about on its own. -/
def send_message_post (access_token phone_number_id to_raw text : String)
    (http : SendHttpReq → Option HttpResp) : ToolOut :=
  let toDigits := normalize to_raw
  let url := "https://graph.facebook.com/v24.0/" ++ phone_number_id ++ "/messages"
  let req : SendHttpReq :=
    { url := url, bearer := access_token, to_wa := toDigits, body_text := text }
  let msgs0 : List ToolMsg := [.logMsg ("send_request") .success]
  match http req with
  | Option.none =>
      { msgs := msgs0 ++ [.logMsg ("exception") .error,
                          .textMsg ("Failed to send message due to exception")]
        request := some req
        outcome := .exnFailure }
  | some resp =>
      let body := safe_json resp
      let ok : Bool := 200 ≤ resp.status_code && resp.status_code < 300
      let msgs1 := msgs0 ++ [.logMsg ("send_response") (if ok then .success else .error)]
      if ok then
        { msgs := msgs1 ++
            [.jsonMsg (.dict [("result", .str ("sent")), ("to", .str toDigits),
                              ("response", body)]),
             .textMsg (sent_summary toDigits body)]
          request := some req
          outcome := .sentOk }
      else
        match extract_api_error body with
        | .error _ =>
            { msgs := msgs1 ++ [.logMsg ("exception") .error,
                                .textMsg ("Failed to send message due to exception")]
              request := some req
              outcome := .exnFailure }
        | .ok (some api_error) =>
            match suggest_fix api_error with
            | some hint =>
                { msgs := msgs1 ++
                    [.jsonMsg (.dict [("error", apiErrorVal api_error),
                                      ("hint", .str hint)])]
                  request := some req
                  outcome := .apiHintError }
            | Option.none =>
                { msgs := msgs1 ++ [.logMsg ("exception") .error,
                                    .textMsg ("Failed to send message due to exception")]
                  request := some req
                  outcome := .exnFailure }
        | .ok Option.none =>
            { msgs := msgs1 ++
                [.textMsg ("Failed to send message: HTTP " ++ toString resp.status_code)]
              request := some req
              outcome := .httpError }

/-- `SendMessageTool._invoke`.  Credentials and parameters arrive as
optional strings (`.get(...) or ""` then `.strip()`); `http` supplies
the platform's response to the POST (`Option.none` models a raised
transport exception).  The two guard clauses return before any
network call; otherwise the invocation continues in
`send_message_post`. -/
def send_message_invoke (access_token_cred phone_number_id_cred
    to_param text_param : Option String)
    (http : SendHttpReq → Option HttpResp) : ToolOut :=
  let access_token := pyStrip (access_token_cred.getD (""))
  let phone_number_id := pyStrip (phone_number_id_cred.getD (""))
  let to_raw := pyStrip (to_param.getD (""))
  let text := pyStrip (text_param.getD (""))
  if access_token == "" || phone_number_id == "" then
    { msgs := [.logMsg ("credentials") .error,
               .textMsg ("Configuration error: missing WhatsApp credentials")]
      request := Option.none
      outcome := .configError }
  else if to_raw == "" || text == "" then
    { msgs := [.logMsg ("parameters") .error,
               .textMsg ("Missing required parameters: to, text")]
      request := Option.none
      outcome := .paramError }
  else
    send_message_post access_token phone_number_id to_raw text http

/-! ## Claims -/

/-- C7: recipient normalization is idempotent
(`normalize (normalize x) = normalize x`), its output consists only
of the characters `0`-`9`, and `"+1 (555) 123-4567"` normalizes to
`"15551234567"`. -/
theorem normalize_idempotent_digits_only :
    (∀ x : String, normalize (normalize x) = normalize x) ∧
    (∀ x : String, ∀ c ∈ (normalize x).data, ('0' ≤ c ∧ c ≤ '9')) ∧
    normalize ("+1 (555) 123-4567") = "15551234567" := by
  refine ⟨?_, ?_, ?_⟩
  · intro x
    unfold normalize
    congr 1
    show (x.data.filter isAsciiDigit).filter isAsciiDigit = x.data.filter isAsciiDigit
    simp [List.filter_filter]
  · intro x c hc
    have h2 : c ∈ x.data.filter isAsciiDigit := hc
    have h3 := (List.mem_filter.mp h2).2
    simpa [isAsciiDigit, Bool.and_eq_true, decide_eq_true_eq] using h3
  · rfl

/-- Witness for C7 at concrete inputs. -/
theorem normalize_idempotent_digits_only_witness :
    normalize (normalize ("+1a2")) = normalize ("+1a2") ∧ ('0' ≤ '1' ∧ '1' ≤ '9') :=
  ⟨normalize_idempotent_digits_only.1 ("+1a2"),
   normalize_idempotent_digits_only.2.1 ("+1a2") '1' (by decide)⟩

/-- C6: if any of the access token, phone number id, `to`, or `text`
is empty after stripping, the direct-send tool yields a
configuration/parameter error text and issues no HTTP request. -/
theorem send_missing_config_or_param (atc pnc top txp : Option String)
    (http : SendHttpReq → Option HttpResp)
    (h : pyStrip (atc.getD ("")) = "" ∨ pyStrip (pnc.getD ("")) = "" ∨
         pyStrip (top.getD ("")) = "" ∨ pyStrip (txp.getD ("")) = "") :
    (send_message_invoke atc pnc top txp http).request = Option.none ∧
    (ToolMsg.textMsg ("Configuration error: missing WhatsApp credentials") ∈
        (send_message_invoke atc pnc top txp http).msgs ∨
     ToolMsg.textMsg ("Missing required parameters: to, text") ∈
        (send_message_invoke atc pnc top txp http).msgs) := by
  by_cases h1 : pyStrip (atc.getD ("")) = "" ∨ pyStrip (pnc.getD ("")) = ""
  · have hb : (pyStrip (atc.getD ("")) == "" || pyStrip (pnc.getD ("")) == "") = true := by
      rcases h1 with h1 | h1 <;> simp [h1]
    refine ⟨?_, Or.inl ?_⟩ <;> simp [send_message_invoke, hb]
  · push_neg at h1
    have hb : (pyStrip (atc.getD ("")) == "" || pyStrip (pnc.getD ("")) == "") = false := by
      simp [h1.1, h1.2]
    have h2 : pyStrip (top.getD ("")) = "" ∨ pyStrip (txp.getD ("")) = "" := by
      rcases h with h | h | h | h
      · exact absurd h h1.1
      · exact absurd h h1.2
      · exact Or.inl h
      · exact Or.inr h
    have hb2 : (pyStrip (top.getD ("")) == "" || pyStrip (txp.getD ("")) == "") = true := by
      rcases h2 with h2 | h2 <;> simp [h2]
    refine ⟨?_, Or.inr ?_⟩ <;> simp [send_message_invoke, hb, hb2]

/-- Witness for C6: blank access token. -/
theorem send_missing_config_or_param_witness :
    (send_message_invoke (some (" ")) (some ("p")) (some ("15551234567"))
        (some ("hi")) (fun _ => Option.none)).request = Option.none ∧
    (ToolMsg.textMsg ("Configuration error: missing WhatsApp credentials") ∈
        (send_message_invoke (some (" ")) (some ("p")) (some ("15551234567"))
          (some ("hi")) (fun _ => Option.none)).msgs ∨
     ToolMsg.textMsg ("Missing required parameters: to, text") ∈
        (send_message_invoke (some (" ")) (some ("p")) (some ("15551234567"))
          (some ("hi")) (fun _ => Option.none)).msgs) :=
  send_missing_config_or_param (some (" ")) (some ("p")) (some ("15551234567"))
    (some ("hi")) (fun _ => Option.none) (Or.inl (by decide))

/-- Characters surviving `pyStrip` are characters of the input. -/
theorem pyStrip_data_subset (s : String) : (pyStrip s).data ⊆ s.data := by
  intro c hc
  have hc1 : c ∈ ((s.data.dropWhile isPySpace).reverse.dropWhile isPySpace).reverse := hc
  rw [List.mem_reverse] at hc1
  have hc2 := (List.dropWhile_sublist _).subset hc1
  rw [List.mem_reverse] at hc2
  exact (List.dropWhile_sublist _).subset hc2

/-- A string with no decimal digits normalizes to the empty string,
also after stripping. -/
theorem normalize_pyStrip_of_no_digits (s : String)
    (h : ∀ c ∈ s.data, isAsciiDigit c = false) : normalize (pyStrip s) = "" := by
  have hnil : (pyStrip s).data.filter isAsciiDigit = [] := by
    rw [List.filter_eq_nil_iff]
    intro c hc
    simp [h c (pyStrip_data_subset s hc)]
  unfold normalize
  rw [hnil]

/-- After the guard clauses, `send_message_post` always issues exactly
the POST built from its arguments and never takes the
missing-parameter branch. -/
theorem send_message_post_request (a p tr tx : String)
    (http : SendHttpReq → Option HttpResp) :
    (send_message_post a p tr tx http).request =
      some { url := "https://graph.facebook.com/v24.0/" ++ p ++ "/messages",
             bearer := a, to_wa := normalize tr, body_text := tx } ∧
    (send_message_post a p tr tx http).outcome ≠ SendOutcome.paramError := by
  constructor
  · simp only [send_message_post]
    repeat' split
    all_goals simp
  · simp only [send_message_post]
    repeat' split
    all_goals simp

/-- C10: the `to` parameter check applies before normalization: a
non-empty `to` containing no decimal digits passes the check (no
missing-parameter error) and the POST is still issued with an
empty-string recipient. -/
theorem send_to_checked_before_normalize
    (atc pnc top txp : Option String) (http : SendHttpReq → Option HttpResp)
    (hat : pyStrip (atc.getD ("")) ≠ "") (hpn : pyStrip (pnc.getD ("")) ≠ "")
    (hto : pyStrip (top.getD ("")) ≠ "") (htx : pyStrip (txp.getD ("")) ≠ "")
    (hnod : ∀ c ∈ (top.getD ("")).data, isAsciiDigit c = false) :
    (send_message_invoke atc pnc top txp http).outcome ≠ SendOutcome.paramError ∧
    ∃ req, (send_message_invoke atc pnc top txp http).request = some req ∧
      req.to_wa = "" := by
  have hb : (pyStrip (atc.getD ("")) == "" || pyStrip (pnc.getD ("")) == "") = false := by
    simp [hat, hpn]
  have hb2 : (pyStrip (top.getD ("")) == "" || pyStrip (txp.getD ("")) == "") = false := by
    simp [hto, htx]
  have heq : send_message_invoke atc pnc top txp http =
      send_message_post (pyStrip (atc.getD (""))) (pyStrip (pnc.getD ("")))
        (pyStrip (top.getD (""))) (pyStrip (txp.getD (""))) http := by
    simp [send_message_invoke, hb, hb2]
  have hpost := send_message_post_request (pyStrip (atc.getD ("")))
    (pyStrip (pnc.getD (""))) (pyStrip (top.getD (""))) (pyStrip (txp.getD (""))) http
  rw [heq]
  refine ⟨hpost.2, ⟨_, hpost.1, ?_⟩⟩
  exact normalize_pyStrip_of_no_digits _ hnod

/-- Witness for C10 at `to = "abc"`. -/
theorem send_to_checked_before_normalize_witness :
    (send_message_invoke (some ("t")) (some ("p")) (some ("abc")) (some ("hi"))
        (fun _ => Option.none)).outcome ≠ SendOutcome.paramError ∧
    ∃ req, (send_message_invoke (some ("t")) (some ("p")) (some ("abc")) (some ("hi"))
        (fun _ => Option.none)).request = some req ∧ req.to_wa = "" :=
  send_to_checked_before_normalize (some ("t")) (some ("p")) (some ("abc")) (some ("hi"))
    (fun _ => Option.none) (by decide) (by decide) (by decide) (by decide) (by decide)

/-- C8: the remediation lookup of `suggest_fix` is evaluated in order:
code 190, then code 100, then the opt-in subcodes, then the
"Unsupported post request" substring test on the message (stated for
messages that are strings after the `or ""` defaulting), with the
generic hint otherwise. -/
theorem suggest_fix_cascade (e : ApiError) :
    (pyEq e.code (.int 190) = true → suggest_fix e = some hint190) ∧
    (pyEq e.code (.int 190) = false → pyEq e.code (.int 100) = true →
      suggest_fix e = some hint100) ∧
    (pyEq e.code (.int 190) = false → pyEq e.code (.int 100) = false →
      (pyEq e.error_subcode (.int 2018049) || pyEq e.error_subcode (.int 131000) ||
       pyEq e.error_subcode (.int 131031)) = true →
      suggest_fix e = some hintOptIn) ∧
    (∀ s : String, pyEq e.code (.int 190) = false → pyEq e.code (.int 100) = false →
      (pyEq e.error_subcode (.int 2018049) || pyEq e.error_subcode (.int 131000) ||
       pyEq e.error_subcode (.int 131031)) = false →
      pyOr e.message (.str ("")) = .str s →
      suggest_fix e = some (if strContains s ("Unsupported post request") = true
                            then hintMismatch else hintGeneric)) := by
  refine ⟨?_, ?_, ?_, ?_⟩ <;> intros <;> simp_all [suggest_fix, apply_ite]

/-- Witness for C8: `code == 190` yields the token hint. -/
theorem suggest_fix_cascade_witness :
    suggest_fix { code := .int 190, type := PyVal.none, message := PyVal.none,
                  error_subcode := PyVal.none } = some hint190 :=
  (suggest_fix_cascade { code := .int 190, type := PyVal.none, message := PyVal.none,
                         error_subcode := PyVal.none }).1 (by decide)

/-- The extraction rule as the C3 claim words it: the first *present*
field among `answer`, `output_text`, `message` wins, regardless of its
value.  Written from the spec sentence, for comparison against the
source's `extract_answer_chain`. -/
def spec_first_present_extract (kvs : List (String × PyVal)) : PyVal :=
  if kvs.any (fun p => p.fst == "answer") then dictGet kvs ("answer")
  else if kvs.any (fun p => p.fst == "output_text") then dictGet kvs ("output_text")
  else if kvs.any (fun p => p.fst == "message") then dictGet kvs ("message")
  else .none

/-- Counterexample to C3: on `{"answer": "", "output_text": "hi"}` the
source's `or`-chain skips the present-but-empty `answer` field and
returns `"hi"`, while first-present-wins would return `""`. -/
theorem extract_first_present_refuted :
    extract_answer_chain [("answer", PyVal.str ("")), ("output_text", PyVal.str ("hi"))] =
      PyVal.str ("hi") ∧
    spec_first_present_extract [("answer", PyVal.str ("")), ("output_text", PyVal.str ("hi"))] =
      PyVal.str ("") ∧
    PyVal.str ("hi") ≠ PyVal.str ("") := by
  refine ⟨rfl, rfl, ?_⟩
  intro h
  injection h with h2
  exact absurd h2 (by decide)

/-- C3 (amended): the `or`-chain tries `answer`, `output_text`,
`message` in order and the first Python-truthy value wins; when
neither `answer` nor `output_text` is truthy the result is the
`message` lookup, whatever it is (`None` when absent). -/
theorem extract_answer_chain_truthy_wins (kvs : List (String × PyVal)) :
    (pyTruthy (dictGet kvs ("answer")) = true →
      extract_answer_chain kvs = dictGet kvs ("answer")) ∧
    (pyTruthy (dictGet kvs ("answer")) = false →
      pyTruthy (dictGet kvs ("output_text")) = true →
      extract_answer_chain kvs = dictGet kvs ("output_text")) ∧
    (pyTruthy (dictGet kvs ("answer")) = false →
      pyTruthy (dictGet kvs ("output_text")) = false →
      extract_answer_chain kvs = dictGet kvs ("message")) := by
  refine ⟨?_, ?_, ?_⟩ <;> intros <;> simp_all [extract_answer_chain, pyOr]

/-- Witness for C3's amended statement. -/
theorem extract_answer_chain_truthy_wins_witness :
    extract_answer_chain [("answer", PyVal.str ("a"))] =
      dictGet [("answer", PyVal.str ("a"))] ("answer") :=
  (extract_answer_chain_truthy_wins [("answer", PyVal.str ("a"))]).1 (by decide)

/-- C1 (code evaluation at the failing input): when the body is not
parseable as JSON, `get_json(silent=True)` yields `None`, the payload
defaults to `{}`, and `_handle_webhook` responds `200 "ok"` — not the
claimed `400 Bad Request` — with no store access, no App invocation
and no send. -/
theorem webhook_unparseable_body_acks_200 (appFn : InvokeParams → Option PyVal)
    (settings : Settings) (store : Store) :
    handle_webhook appFn Option.none settings store = (some okResp, initSt store) := rfl

/-- Counterexample to C5: the valid JSON body `5` parses to a truthy
non-container payload, so `'entry' not in payload` raises `TypeError`
outside the `try` and the handler produces no response at all (in
particular not the claimed `200`). -/
theorem webhook_scalar_payload_cex :
    (handle_webhook (fun _ => Option.none) (some (PyVal.int 5))
        { access_token := some ("t"), phone_number_id := some ("p"), app := PyVal.none }
        []).fst = Option.none ∧
    (handle_webhook (fun _ => Option.none) (some (PyVal.int 5))
        { access_token := some ("t"), phone_number_id := some ("p"), app := PyVal.none }
        []).fst ≠ some okResp := by
  refine ⟨rfl, ?_⟩
  intro h
  exact Option.noConfusion h

/-- C5 (amended): for every parsed payload that is falsy, or whose
`'entry' not in payload` membership test evaluates (to false) without
raising, `_handle_webhook` responds `200 "ok"` with the store
untouched and zero effects of any kind. -/
theorem webhook_irrelevant_payload_acks (appFn : InvokeParams → Option PyVal)
    (parsed : Option PyVal) (settings : Settings) (store : Store)
    (h : pyTruthy (webhook_payload parsed) = false ∨
         pyInE ("entry") (webhook_payload parsed) = .ok false) :
    handle_webhook appFn parsed settings store = (some okResp, initSt store) := by
  rcases h with h | h
  · simp [handle_webhook, h]
  · by_cases ht : pyTruthy (webhook_payload parsed) = true
    · simp [handle_webhook, ht, h]
    · simp only [Bool.not_eq_true] at ht
      simp [handle_webhook, ht]

/-- Witness for C5's amended statement: a payload without `entry`. -/
theorem webhook_irrelevant_payload_acks_witness :
    handle_webhook (fun _ => Option.none)
      (some (PyVal.dict [("object", PyVal.str ("whatsapp_business_account"))]))
      { access_token := some ("t"), phone_number_id := some ("p"), app := PyVal.none } [] =
    (some okResp, initSt []) :=
  webhook_irrelevant_payload_acks _ _ _ _ (Or.inr rfl)

/-- Looking up a key just written finds the written value. -/
theorem storeLookup_storeSet_self (st : Store) (k v : String) :
    storeLookup (storeSet st k v) k = some v := by
  simp [storeLookup, storeSet, List.find?]

/-- `_invoke_app_reply` records exactly one App invocation, with the
parameters built from the token stored at entry. -/
theorem invoke_app_reply_invokes (appFn : InvokeParams → Option PyVal)
    (app_id : String) (query : PyVal) (inputs : List (String × PyVal))
    (key : String) (st : WalkSt) :
    (invoke_app_reply appFn app_id query inputs key st).snd.invokes =
      st.invokes ++
        [build_invoke_params app_id query inputs (stored_conversation_id st.store key)] := by
  simp only [invoke_app_reply]
  rcases appFn (build_invoke_params app_id query inputs
      (stored_conversation_id st.store key)) with _ | result
  · rfl
  · rcases result with _ | b | n | s | xs | kvs <;> first
      | rfl
      | (simp only []
         split <;> rfl)

/-- `_invoke_app_reply` performs no outbound send. -/
theorem invoke_app_reply_sends (appFn : InvokeParams → Option PyVal)
    (app_id : String) (query : PyVal) (inputs : List (String × PyVal))
    (key : String) (st : WalkSt) :
    (invoke_app_reply appFn app_id query inputs key st).snd.sends = st.sends := by
  simp only [invoke_app_reply]
  rcases appFn (build_invoke_params app_id query inputs
      (stored_conversation_id st.store key)) with _ | result
  · rfl
  · rcases result with _ | b | n | s | xs | kvs <;> first
      | rfl
      | (simp only []
         split <;> rfl)

/-- C2: if the App's response to the first invocation carries a
(non-empty string) `conversation_id`, that identifier is persisted
under the conversation key, a second invocation for the same key
builds its request with exactly that identifier, and that request
carries it in its `conversation_id` field. -/
theorem continuity_round_trip
    (appFn : InvokeParams → Option PyVal) (app_id : String)
    (q1 q2 : PyVal) (inp1 inp2 : List (String × PyVal)) (key : String)
    (st0 : WalkSt) (kvs1 : List (String × PyVal)) (s : String)
    (hresp : appFn (build_invoke_params app_id q1 inp1
        (stored_conversation_id st0.store key)) = some (.dict kvs1))
    (hcid : dictGet kvs1 ("conversation_id") = .str s)
    (hs : s ≠ "") :
    storeLookup (invoke_app_reply appFn app_id q1 inp1 key st0).snd.store key = some s ∧
    (invoke_app_reply appFn app_id q2 inp2 key
        (invoke_app_reply appFn app_id q1 inp1 key st0).snd).snd.invokes =
      (invoke_app_reply appFn app_id q1 inp1 key st0).snd.invokes ++
        [build_invoke_params app_id q2 inp2 (some s)] ∧
    (build_invoke_params app_id q2 inp2 (some s)).conversation_id = some s := by
  have h1 : (invoke_app_reply appFn app_id q1 inp1 key st0).snd.store =
      storeSet st0.store key s := by
    simp only [invoke_app_reply, hresp]
    have htr : pyTruthy (dictGet kvs1 ("conversation_id")) = true := by
      rw [hcid]; simp [pyTruthy, hs]
    simp [htr, hcid, pyStr, pyTruthy, hs]
  have hlook : storeLookup (invoke_app_reply appFn app_id q1 inp1 key st0).snd.store key =
      some s := by
    rw [h1]; exact storeLookup_storeSet_self st0.store key s
  have hstored : stored_conversation_id
      (invoke_app_reply appFn app_id q1 inp1 key st0).snd.store key = some s := by
    simp [stored_conversation_id, hlook, hs]
  refine ⟨hlook, ?_, by simp [build_invoke_params, hs]⟩
  rw [invoke_app_reply_invokes, hstored]

/-- Witness for C2 on a concrete two-call run. -/
theorem continuity_round_trip_witness :
    storeLookup (invoke_app_reply
        (fun _ => some (.dict [("answer", PyVal.str ("hello")),
                               ("conversation_id", PyVal.str ("c1"))]))
        ("app") (PyVal.str ("hi")) [] ("whatsapp:p:u") (initSt [])).snd.store
      ("whatsapp:p:u") = some ("c1") ∧
    (invoke_app_reply
        (fun _ => some (.dict [("answer", PyVal.str ("hello")),
                               ("conversation_id", PyVal.str ("c1"))]))
        ("app") (PyVal.str ("again")) [] ("whatsapp:p:u")
        (invoke_app_reply
          (fun _ => some (.dict [("answer", PyVal.str ("hello")),
                                 ("conversation_id", PyVal.str ("c1"))]))
          ("app") (PyVal.str ("hi")) [] ("whatsapp:p:u") (initSt [])).snd).snd.invokes =
      (invoke_app_reply
        (fun _ => some (.dict [("answer", PyVal.str ("hello")),
                               ("conversation_id", PyVal.str ("c1"))]))
        ("app") (PyVal.str ("hi")) [] ("whatsapp:p:u") (initSt [])).snd.invokes ++
        [build_invoke_params ("app") (PyVal.str ("again")) [] (some ("c1"))] ∧
    (build_invoke_params ("app") (PyVal.str ("again")) [] (some ("c1"))).conversation_id =
      some ("c1") :=
  continuity_round_trip
    (fun _ => some (.dict [("answer", PyVal.str ("hello")),
                           ("conversation_id", PyVal.str ("c1"))]))
    ("app") (PyVal.str ("hi")) (PyVal.str ("again")) [] [] ("whatsapp:p:u")
    (initSt []) [("answer", PyVal.str ("hello")), ("conversation_id", PyVal.str ("c1"))]
    ("c1") rfl rfl (by decide)

/-- C4: when the App Bridge step yields no reply (`None`) or an empty
one (`""`) — covering no app configured, invocation failure, and empty
answer — the reply text falls back to the inbound text exactly: the
message's processing ends with either no send or one send carrying
exactly the inbound text to the sender. -/
theorem echo_fallback (ctx : Ctx) (message : PyVal) (st : WalkSt)
    (sender tb : PyVal) (r : Option String) (st1 : WalkSt)
    (hfrom : pyGetE message ("from") = .ok sender)
    (hsender : pyTruthy sender = true)
    (htext : extract_text message = .ok tb)
    (htb : tb.isNone = false)
    (hbr : (match ctx.app_id with
            | some a => invoke_app_reply ctx.appFn a tb
                [("whatsapp_user_id", sender),
                 ("phone_number_id", .str ctx.phone_number_id)]
                ("whatsapp:" ++ ctx.phone_number_id ++ ":" ++ pyStr sender) st
            | Option.none => (Option.none, st)) = (r, st1))
    (hr : r = Option.none ∨ r = some ("")) :
    process_message ctx message st =
      .ok (if ctx.can_reply && pyTruthy tb then
             { st1 with sends := st1.sends ++ [{ to_wa_id := sender, body := tb }] }
           else st1) := by
  simp only [process_message, hfrom, htext, hsender, htb, Bool.not_true, Bool.false_or]
  rw [hbr]
  rcases hr with hr | hr <;> subst hr <;>
    (simp [send_whatsapp_text, pyTruthy]
     try (split <;> rfl))

/-- Witness for C4: no app configured, text `"hi"` echoed back. -/
theorem echo_fallback_witness :
    process_message
      { appFn := fun _ => Option.none, app_id := Option.none, can_reply := true,
        access_token := "t", phone_number_id := "p" }
      (.dict [("from", PyVal.str ("u")), ("type", PyVal.str ("text")),
              ("text", PyVal.dict [("body", PyVal.str ("hi"))])])
      (initSt []) =
    .ok (if true && pyTruthy (PyVal.str ("hi")) then
           { (initSt []) with sends := (initSt []).sends ++
               [{ to_wa_id := PyVal.str ("u"), body := PyVal.str ("hi") }] }
         else initSt []) :=
  echo_fallback
    { appFn := fun _ => Option.none, app_id := Option.none, can_reply := true,
      access_token := "t", phone_number_id := "p" }
    (.dict [("from", PyVal.str ("u")), ("type", PyVal.str ("text")),
            ("text", PyVal.dict [("body", PyVal.str ("hi"))])])
    (initSt []) (PyVal.str ("u")) (PyVal.str ("hi")) Option.none (initSt [])
    rfl rfl rfl rfl rfl (Or.inl rfl)

/-- Helper for the C9 invariant: the final send step of the message
loop either leaves the state unchanged or appends one send with a
truthy body addressed to the extracted sender. -/
theorem send_step_sends (ctxv : Ctx) (sender q : PyVal) (stA st2 : WalkSt)
    (hok : (if (ctxv.can_reply && pyTruthy q) = true
            then Except.ok (send_whatsapp_text ctxv sender q stA)
            else Except.ok stA) = (Except.ok st2 : Except Unit WalkSt)) :
    ∀ r ∈ st2.sends, r ∈ stA.sends ∨ (pyTruthy r.body = true ∧ r.to_wa_id = sender) := by
  by_cases hc : (ctxv.can_reply && pyTruthy q) = true
  · rw [if_pos hc] at hok
    injection hok with h
    subst h
    intro r hr
    simp only [send_whatsapp_text, List.mem_append, List.mem_singleton] at hr
    rcases hr with hr | hr
    · exact Or.inl hr
    · subst hr
      have hc2 := hc
      rw [Bool.and_eq_true] at hc2
      exact Or.inr ⟨hc2.2, rfl⟩
  · rw [if_neg hc] at hok
    injection hok with h
    subst h
    exact fun r hr => Or.inl hr

/-- C9 (amended): every send recorded while processing a message is
either pre-existing or has a Python-truthy (hence non-empty when a
string) body addressed to that message's `from` value; and with no
app configured, a text message with empty body never triggers a send.
(With an app configured, an empty body can still trigger a send
carrying the app's reply — see the counterexample.) -/
theorem process_message_send_invariant (ctx : Ctx) (message : PyVal) (st : WalkSt) :
    (∀ st', process_message ctx message st = .ok st' →
      ∀ r ∈ st'.sends, r ∈ st.sends ∨
        (pyTruthy r.body = true ∧ pyGetE message ("from") = .ok r.to_wa_id)) ∧
    (ctx.app_id = Option.none → extract_text message = .ok (.str ("")) →
      ∀ st', process_message ctx message st = .ok st' → st'.sends = st.sends) := by
  constructor
  · intro st' hok r hr
    rcases hfrom : pyGetE message ("from") with u | sender
    · simp only [process_message, hfrom] at hok
      exact absurd hok (by simp)
    · rcases htext : extract_text message with u | tb
      · simp only [process_message, hfrom, htext] at hok
        exact absurd hok (by simp)
      · simp only [process_message, hfrom, htext] at hok
        split at hok
        · injection hok with h
          subst h
          exact Or.inl hr
        · have hST : (match ctx.app_id with
              | some a => invoke_app_reply ctx.appFn a tb
                  [("whatsapp_user_id", sender),
                   ("phone_number_id", .str ctx.phone_number_id)]
                  ("whatsapp:" ++ ctx.phone_number_id ++ ":" ++ pyStr sender) st
              | Option.none => (Option.none, st)).snd.sends = st.sends := by
            rcases ctx.app_id with _ | a
            · rfl
            · exact invoke_app_reply_sends ctx.appFn a tb
                [("whatsapp_user_id", sender),
                 ("phone_number_id", .str ctx.phone_number_id)]
                ("whatsapp:" ++ ctx.phone_number_id ++ ":" ++ pyStr sender) st
          rcases send_step_sends ctx sender _ _ _ hok r hr with h | ⟨hb, hto⟩
          · rw [hST] at h
            exact Or.inl h
          · exact Or.inr ⟨hb, by rw [hto]⟩
  · intro happ hemp st' hok
    rcases hfrom : pyGetE message ("from") with u | sender
    · simp only [process_message, hfrom] at hok
      exact absurd hok (by simp)
    · simp only [process_message, hfrom, hemp, happ] at hok
      simp [pyTruthy, PyVal.isNone, send_whatsapp_text] at hok
      subst hok
      rfl

/-- Counterexample to C9's "empty body never sends": with an app
configured that answers `"hi"`, a text message whose body is the
empty string still triggers a send (carrying the app's reply). -/
theorem empty_body_still_sends_cex :
    (match process_message
        { appFn := fun _ => some (.dict [("answer", PyVal.str ("hi"))]),
          app_id := some ("app"), can_reply := true,
          access_token := "t", phone_number_id := "p" }
        (.dict [("from", PyVal.str ("u")), ("type", PyVal.str ("text")),
                ("text", PyVal.dict [("body", PyVal.str (""))])])
        (initSt []) with
     | .ok st => st.sends
     | .error _ => []) =
      [{ to_wa_id := PyVal.str ("u"), body := PyVal.str ("hi") }] := rfl

/-- Witness for C9's amended statement. -/
theorem process_message_send_invariant_witness :
    ({ to_wa_id := PyVal.str ("u"), body := PyVal.str ("hello") } : SendReq) ∈
        (initSt []).sends ∨
    (pyTruthy (PyVal.str ("hello")) = true ∧
     pyGetE (.dict [("from", PyVal.str ("u")), ("type", PyVal.str ("text")),
                    ("text", PyVal.dict [("body", PyVal.str ("hello"))])]) ("from") =
       .ok (PyVal.str ("u"))) :=
  (process_message_send_invariant
    { appFn := fun _ => Option.none, app_id := Option.none, can_reply := true,
      access_token := "t", phone_number_id := "p" }
    (.dict [("from", PyVal.str ("u")), ("type", PyVal.str ("text")),
            ("text", PyVal.dict [("body", PyVal.str ("hello"))])])
    (initSt [])).1
    { store := [], reads := [], writes := [], invokes := [],
      sends := [{ to_wa_id := PyVal.str ("u"), body := PyVal.str ("hello") }] }
    rfl
    { to_wa_id := PyVal.str ("u"), body := PyVal.str ("hello") }
    (List.mem_singleton_self _)

end WABot
